import Mathlib

/-!  Shallow embedding of the Rubix node manager (`rubix_node_manager.py`) and the
restart setup script (`rubix_restart_setup.py`).

The Python programs orchestrate a fleet of external node processes over HTTP and
a CLI.  All external effects are modelled as oracle parameters:

* HTTP responses are `Envelope` values supplied by the environment;
* process start, readiness polling, identity creation, per-node call outcomes
  and the metadata-file contents are fields of `FreshEnv` / `RestartEnv` /
  `MetaFile`;
* balances (Python floats) are modelled as `Rat`, which is faithful for the only
  operation performed on them (comparison with zero);
* wall-clock sleeps are recorded as data (the sleep-duration trace of the
  balance-verification loop) rather than performed.

Python is dynamically typed; the embedding restricts JSON payloads to the
type-correct ones actually produced and consumed by the two scripts (ill-typed
optional fields are mapped to a parse failure).  Python `dict`s are association
lists read through `dget`/`alookup`; insertion order is the list order, exactly
as in CPython.  -/

namespace Rubix

/-- JSON scalar values appearing in the node-metadata file and API payloads. -/
inductive JVal where
  | s : String → JVal
  | i : Int → JVal
  | b : Bool → JVal
deriving DecidableEq, Repr

/-- A JSON object (Python dict) as an association list in insertion order. -/
abbrev RawDict := List (String × JVal)

/-- Generic association-list lookup, modelling Python dict indexing `d[k]`
and membership `k in d`. -/
def alookup {α : Type} : List (String × α) → String → Option α
  | [], _ => none
  | (k', v) :: rest, k => if k' = k then some v else alookup rest k

/-- Dictionary lookup on a JSON object (`d[k]` / `d.get(k)`). -/
def dget (d : RawDict) (k : String) : Option JVal := alookup d k

/-- `d.get(k, dflt)` for a string-valued field: absent key yields the default,
a present non-string value is rejected as ill-typed. -/
def optStr (d : RawDict) (k : String) (dflt : String) : Option String :=
  match dget d k with
  | none => some dflt
  | some (.s v) => some v
  | some _ => none

/-- `d.get(k, dflt)` for a boolean-valued field. -/
def optBool (d : RawDict) (k : String) (dflt : Bool) : Option Bool :=
  match dget d k with
  | none => some dflt
  | some (.b v) => some v
  | some _ => none

/-- `NodeInfo` from `rubix_node_manager.py` (identical in the restart script):
one record per logical node.  The `process` handle is an OS resource and is not
part of the serialized record; it is omitted here. -/
structure NodeInfo where
  id : String
  server_port : Int
  grpc_port : Int
  did : String
  peer_id : String
  is_quorum : Bool
  status : String
deriving DecidableEq, Repr

/-- `NodeInfo.to_dict`: the exact seven-key serialization, in source order. -/
def NodeInfo.to_dict (n : NodeInfo) : RawDict :=
  [("id", .s n.id), ("server_port", .i n.server_port), ("grpc_port", .i n.grpc_port),
   ("did", .s n.did), ("peer_id", .s n.peer_id), ("is_quorum", .b n.is_quorum),
   ("status", .s n.status)]

/-- `NodeInfo.from_dict`: `id`, `server_port` and `grpc_port` are required
(Python raises `KeyError` when absent, modelled as `none`); the remaining four
fields default via `.get`. -/
def NodeInfo.from_dict (d : RawDict) : Option NodeInfo :=
  match dget d "id", dget d "server_port", dget d "grpc_port" with
  | some (.s nid), some (.i sp), some (.i gp) =>
    match optStr d "did" "", optStr d "peer_id" "", optBool d "is_quorum" false,
          optStr d "status" "stopped" with
    | some did, some peer, some isq, some st => some ⟨nid, sp, gp, did, peer, isq, st⟩
    | _, _, _, _ => none
  | _, _, _ => none

/-- `RubixConfig`: the static configuration values used by the orchestration
logic (directory and URL fields are file-system plumbing and are omitted). -/
structure RubixConfig where
  base_server_port : Int
  base_grpc_port : Int
  quorum_node_count : Nat
  min_transaction_nodes : Nat
  max_transaction_nodes : Nat
  node_startup_timeout : Nat
  default_priv_key_password : String
  default_quorum_key_password : String
deriving Repr

/-- The default configuration built by `RubixConfig.__init__`. -/
def cfg0 : RubixConfig := ⟨20000, 10500, 7, 2, 20, 120, "mypassword", "mypassword"⟩

/-- Node identifier `f"node{i}"`. -/
def nodeId (i : Nat) : String := "node" ++ toString i

/-- The data of an HTTP response as consumed by the client code: status code,
the boolean `status` envelope field, the `message` field, and the challenge
`result.id` / `result.mode` pair (empty / zero when absent). -/
structure Envelope where
  status_code : Int
  status : Bool
  message : String
  result_id : String
  result_mode : Int
deriving DecidableEq, Repr

/-- The payload posted to `/api/signature-response`. -/
structure SigPayload where
  id : String
  mode : Int
  password : String
deriving DecidableEq, Repr

/-- `RubixClient._send_signature_response`: succeeds iff the endpoint answers
HTTP 200 with a truthy `status`. -/
def send_signature_response (resp : Envelope) : Bool :=
  decide (resp.status_code = 200) && resp.status

/-- `RubixClient.register_did`.  `resp` is the response to the initial
`/api/register-did` post; `sigEndpoint` maps a submitted signature payload to
the `/api/signature-response` reply.  Returns the boolean result together with
the list of signature payloads actually submitted. -/
def register_did (resp : Envelope) (sigEndpoint : SigPayload → Envelope)
    (did password : String) : Bool × List SigPayload :=
  if resp.status_code ≠ 200 then (false, [])
  else if resp.status && (resp.message == "Password needed") && !(resp.result_id == "") then
    let p : SigPayload := ⟨resp.result_id, resp.result_mode, password⟩
    (send_signature_response (sigEndpoint p), [p])
  else if !resp.status then (false, [])
  else (true, [])

/-- The polling loop of `RubixClient._verify_token_generation`: starting at
check index `i` with `fuel` attempts remaining, sleep 5 seconds, read the
balance (`none` models a raised exception, swallowed by the loop), succeed on
the first positive balance.  Returns the outcome together with the list of
sleep durations performed. -/
def verifyGo (bal : Nat → Option Rat) : Nat → Nat → Bool × List Nat
  | _, 0 => (false, [])
  | i, fuel + 1 =>
    match bal i with
    | some b =>
      if 0 < b then (true, [5])
      else
        let r := verifyGo bal (i + 1) fuel
        (r.1, 5 :: r.2)
    | none =>
      let r := verifyGo bal (i + 1) fuel
      (r.1, 5 :: r.2)

/-- `RubixClient._verify_token_generation` (default `max_attempts = 10`). -/
def verify_token_generation (bal : Nat → Option Rat) (max_attempts : Nat) : Bool :=
  (verifyGo bal 0 max_attempts).1

/-- `RubixClient.generate_test_tokens`: posts the issuance request (`genResp` is
its response); on the password-challenge path with a non-empty challenge id it
submits the signature response and then balance-verifies; every other path
reports failure. -/
def generate_test_tokens (genResp : Envelope) (sigEndpoint : SigPayload → Envelope)
    (bal : Nat → Option Rat) (password : String) : Bool :=
  if genResp.status_code ≠ 200 then false
  else if genResp.status && (genResp.message == "Password needed")
      && !(genResp.result_id == "") then
    if send_signature_response (sigEndpoint ⟨genResp.result_id, genResp.result_mode, password⟩) then
      verify_token_generation bal 10
    else false
  else false

/-- A quorum list entry `{"type": 2, "address": did}` (field `type` renamed to
`qtype`). -/
structure QEntry where
  qtype : Int
  address : String
deriving DecidableEq, Repr

/-- Environment of a fresh `RubixManager.start_nodes` run.  Per-index oracles
describe the phase-1 interactions (process start, readiness polling, DID
creation, where `none` models a raised exception); per-node-id oracles describe
the later per-node call outcomes.  `tokenGenOk id a` is the result of the
`client.generate_test_tokens` call on attempt `a`, and `tokenBalance id a` the
subsequent caller-side `get_account_balance` read (`none` = exception). -/
structure FreshEnv where
  platformOk : Bool
  startOk : Nat → Bool
  readyOk : Nat → Bool
  create_did : Nat → Option (String × String)
  registerOk : String → Bool
  addQuorumOk : String → Bool
  setupQuorumOk : String → Bool
  tokenGenOk : String → Nat → Bool
  tokenBalance : String → Nat → Option Rat
  saveOk : Bool

/-- The phase-1 loop of `start_nodes`: for each index, start the process, wait
for readiness, create the DID; abort the whole run on the first failure.  The
accumulator `att` records the indices for which `_start_node_process` was
invoked. -/
def phase1Go (cfg : RubixConfig) (env : FreshEnv) :
    Nat → Nat → List Nat → List NodeInfo → List QEntry →
      List Nat × Option (List NodeInfo × List QEntry)
  | _, 0, att, ns, ql => (att, some (ns, ql))
  | i, fuel + 1, att, ns, ql =>
    if env.startOk i = false then (att ++ [i], none)
    else if env.readyOk i = false then (att ++ [i], none)
    else
      match env.create_did i with
      | none => (att ++ [i], none)
      | some dp =>
        let isQ : Bool := decide (i < cfg.quorum_node_count)
        let nd : NodeInfo :=
          ⟨nodeId i, cfg.base_server_port + (i : Int), cfg.base_grpc_port + (i : Int),
           dp.1, dp.2, isQ, "running"⟩
        phase1Go cfg env (i + 1) fuel (att ++ [i]) (ns ++ [nd])
          (if isQ then ql ++ [⟨2, dp.1⟩] else ql)

/-- Count of nodes for which a per-node operation succeeded
(`xxx_success += 1` aggregation over `self.nodes`). -/
def countSuccess (p : NodeInfo → Bool) (ns : List NodeInfo) : Nat := (ns.filter p).length

/-- The per-node retry loop of the token-generation phase
(`max_retries = 2`): on a successful `generate_test_tokens` call, re-check the
balance (exception breaks out with failure, positive balance succeeds, zero
balance retries while attempts remain); on a failed call, stop after the last
attempt. -/
def token_attempt_loop (genOk : Nat → Bool) (bal : Nat → Option Rat) : Nat → Nat → Bool
  | _, 0 => false
  | attempt, fuel + 1 =>
    if genOk attempt then
      match bal attempt with
      | none => false
      | some b =>
        if 0 < b then true
        else if attempt < 2 then token_attempt_loop genOk bal (attempt + 1) fuel
        else false
    else if attempt = 2 then false
    else token_attempt_loop genOk bal (attempt + 1) fuel

/-- Token-generation outcome for one node in the fresh flow. -/
def token_node_success (env : FreshEnv) (nid : String) : Bool :=
  token_attempt_loop (env.tokenGenOk nid) (env.tokenBalance nid) 1 2

/-- End-of-run summary of a completed fresh `start_nodes` run: the node
records, the phase-1 quorum list, the per-phase success counts, the metadata
persist outcome, the final warning flag, and the returned boolean. -/
structure FreshSummary where
  nodes : List NodeInfo
  quorum_list : List QEntry
  registration_success : Nat
  quorum_add_success : Nat
  quorum_setup_success : Nat
  token_gen_success : Nat
  persisted : Bool
  warned : Bool
  retVal : Bool
deriving DecidableEq, Repr

/-- The fresh path of `RubixManager.start_nodes` after the platform check:
the first component lists the indices whose processes were started, the second
is `none` when the run aborted in phase 1 and the completed summary otherwise.
On completion the source returns `True` unconditionally (`retVal`), emitting
only a log warning when some per-phase count falls short. -/
def freshRun (cfg : RubixConfig) (env : FreshEnv) : List Nat × Option FreshSummary :=
  if env.platformOk then
    match phase1Go cfg env 0 (cfg.quorum_node_count + cfg.max_transaction_nodes) [] [] [] with
    | (att, none) => (att, none)
    | (att, some (ns, ql)) =>
      let reg := countSuccess (fun nd => env.registerOk nd.id) ns
      let qadd := countSuccess (fun nd => env.addQuorumOk nd.id) ns
      let qsetup := countSuccess (fun nd => nd.is_quorum && env.setupQuorumOk nd.id) ns
      let tok := countSuccess (fun nd => token_node_success env nd.id) ns
      let warned := decide (reg < ns.length) || decide (qadd < ns.length)
        || decide (tok < ns.length)
      (att, some ⟨ns, ql, reg, qadd, qsetup, tok, env.saveOk, warned, true⟩)
  else ([], none)

/-- The state of the metadata file on disk: absent, present but unreadable
(I/O or JSON parse error), or parsed into a JSON object. -/
inductive MetaFile where
  | missing
  | unreadable
  | parsed (entries : List (String × RawDict))
deriving Repr

/-- `self.metadata_file.exists()`. -/
def file_exists : MetaFile → Bool
  | .missing => false
  | _ => true

/-- `RubixManager._load_metadata`: returns the parsed JSON object, or `None`
on any exception (missing or unreadable file). -/
def load_metadata_manager : MetaFile → Option (List (String × RawDict))
  | .missing => none
  | .unreadable => none
  | .parsed entries => some entries

/-- First loop of `RubixManager._adjust_node_count`: parse every metadata
entry (a malformed entry raises, aborting the flow) and keep the quorum-role
records, in metadata order. -/
def quorumPass : List (String × RawDict) → Option (List (String × NodeInfo))
  | [] => some []
  | (k, d) :: rest =>
    match NodeInfo.from_dict d with
    | none => none
    | some n =>
      match quorumPass rest with
      | none => none
      | some ns => some (if n.is_quorum then (k, n) :: ns else ns)

/-- Second loop of `_adjust_node_count`: for `i` in
`range(max_transaction_nodes)`, look up `node{quorum_node_count + i}` and, while
the quota is unfilled, parse it and add it if it is a transaction-role record.
Entries beyond the filled quota are never parsed. -/
def transPassGo (cfg : RubixConfig) (md : List (String × RawDict)) (requested : Nat) :
    Nat → Nat → Nat → Option (List (String × NodeInfo))
  | _, _, 0 => some []
  | i, added, fuel + 1 =>
    let key := nodeId (cfg.quorum_node_count + i)
    match alookup md key with
    | none => transPassGo cfg md requested (i + 1) added fuel
    | some d =>
      if added < requested then
        match NodeInfo.from_dict d with
        | none => none
        | some n =>
          if n.is_quorum then transPassGo cfg md requested (i + 1) added fuel
          else
            match transPassGo cfg md requested (i + 1) (added + 1) fuel with
            | none => none
            | some ns => some ((key, n) :: ns)
      else transPassGo cfg md requested (i + 1) added fuel

/-- `RubixManager._adjust_node_count`: load the metadata (`None` or an empty
mapping is a failure), always retain every quorum-role record, then select the
first transaction-role records by ascending index up to the requested count.
The resulting active map lists quorum records first (metadata order), then the
selected transaction records (index order), matching dict insertion order. -/
def adjust_node_count (cfg : RubixConfig) (mf : MetaFile) (requested : Nat) :
    Option (List (String × NodeInfo)) :=
  match load_metadata_manager mf with
  | none => none
  | some metadata =>
    if metadata.isEmpty then none
    else
      match quorumPass metadata with
      | none => none
      | some qs =>
        match transPassGo cfg metadata requested 0 0 cfg.max_transaction_nodes with
        | none => none
        | some ts => some (qs ++ ts)

/-- Result of `RubixManager.start_nodes`: a raised `ValueError` for an
out-of-bounds count, the adjust path (selected active map plus the returned
boolean), or the fresh path (process-start attempts plus the optional
summary). -/
inductive StartResult where
  | invalid
  | adjusted (ok : Bool) (nodes : List (String × NodeInfo))
  | fresh (attempts : List Nat) (summary : Option FreshSummary)
deriving Repr

/-- `RubixManager.start_nodes`: validate the requested transaction-node count,
take the adjust path when not fresh and a metadata file exists, otherwise run
the fresh provisioning flow (which overwrites the requested count with
`max_transaction_nodes`). -/
def start_nodes (cfg : RubixConfig) (env : FreshEnv) (mf : MetaFile)
    (count : Nat) (freshFlag : Bool) : StartResult :=
  if count < cfg.min_transaction_nodes then .invalid
  else if cfg.max_transaction_nodes < count then .invalid
  else if !freshFlag && file_exists mf then
    match adjust_node_count cfg mf count with
    | none => .adjusted false []
    | some ns => .adjusted true ns
  else
    let r := freshRun cfg env
    .fresh r.1 r.2

/-- Indices whose node process was started by a `start_nodes` call. -/
def starts_of : StartResult → List Nat
  | .fresh att _ => att
  | _ => []

/-- The active node map selected by a successful adjust path. -/
def active_of : StartResult → Option (List (String × NodeInfo))
  | .adjusted true ns => some ns
  | _ => none

/-- Environment of a `RubixRestartManager.restart_nodes` run, with per-node-id
oracles for each per-node operation. -/
structure RestartEnv where
  startOk : String → Bool
  readyOk : String → Bool
  registerOk : String → Bool
  addQuorumOk : String → Bool
  setupQuorumOk : String → Bool
  tokenGenOk : String → Nat → Bool
  tokenBalance : String → Nat → Option Rat

/-- Phase 3 of `restart_nodes`: start each node and wait for readiness (CLI
probe); abort on the first failure.  The accumulator records the node ids whose
processes were started. -/
def restart_phase3 (env : RestartEnv) :
    List (String × NodeInfo) → List String → List String × Bool
  | [], att => (att, true)
  | (nid, _) :: rest, att =>
    if env.startOk nid = false then (att ++ [nid], false)
    else if env.readyOk nid = false then (att ++ [nid], false)
    else restart_phase3 env rest (att ++ [nid])

/-- Phase 5 quorum-list construction in `restart_nodes`: one `(2, did)` entry
per quorum-role record with a non-empty DID, together with the `quorum_count`
tally (incremented in lockstep with the append). -/
def build_quorum_list : List NodeInfo → List QEntry × Nat
  | [] => ([], 0)
  | n :: rest =>
    let r := build_quorum_list rest
    if n.is_quorum && !(n.did == "") then (⟨2, n.did⟩ :: r.1, r.2 + 1) else r

/-- End-of-run summary of a completed `restart_nodes` run. -/
structure RestartSummary where
  started : Nat
  total : Nat
  registration_success : Nat
  quorum_list : List QEntry
  quorum_count : Nat
  quorum_add_success : Nat
  quorum_setup_success : Nat
  token_gen_success : Nat
  retVal : Bool
deriving DecidableEq, Repr

/-- Phases 3–8 of `RubixRestartManager.restart_nodes`, starting from the loaded
node map.  Nodes without a DID are skipped (not counted) in registration and
token generation.  The run returns `True` iff the started, registration,
quorum-distribution and token counts all reach the node total; the
quorum-setup count is not consulted. -/
def restart_nodes (env : RestartEnv) (nodes : List (String × NodeInfo)) :
    List String × Option RestartSummary :=
  match restart_phase3 env nodes [] with
  | (att, false) => (att, none)
  | (att, true) =>
    let ns := nodes.map Prod.snd
    let n := ns.length
    let reg := countSuccess (fun nd => !(nd.did == "") && env.registerOk nd.id) ns
    let bq := build_quorum_list ns
    let qadd := countSuccess (fun nd => env.addQuorumOk nd.id) ns
    let qsetup := countSuccess
      (fun nd => nd.is_quorum && !(nd.did == "") && env.setupQuorumOk nd.id) ns
    let tok := countSuccess
      (fun nd => !(nd.did == "")
        && token_attempt_loop (env.tokenGenOk nd.id) (env.tokenBalance nd.id) 1 2) ns
    let started := att.length
    let retVal := !(decide (started < n) || decide (reg < n) || decide (qadd < n)
      || decide (tok < n))
    (att, some ⟨started, n, reg, bq.1, bq.2, qadd, qsetup, tok, retVal⟩)

/-- Parse every metadata entry into a node record, aborting on the first
malformed entry (the `NodeInfo.from_dict` exception path). -/
def fleetFromDicts : List (String × RawDict) → Option (List (String × NodeInfo))
  | [] => some []
  | (k, d) :: rest =>
    match NodeInfo.from_dict d with
    | none => none
    | some n =>
      match fleetFromDicts rest with
      | none => none
      | some ns => some ((k, n) :: ns)

/-- Serialize a node map back to metadata form (`_save_metadata`). -/
def fleetToDicts (ns : List (String × NodeInfo)) : List (String × RawDict) :=
  ns.map (fun p => (p.1, p.2.to_dict))

/-- `RubixRestartManager._load_metadata`: a missing or unreadable file is an
error, a present file with zero entries is an error, a malformed entry is an
error, and a fleet in which no record carries a DID is an error; a fleet where
only some records lack DIDs loads successfully with a warning. -/
def load_metadata_restart (mf : MetaFile) : Option (List (String × NodeInfo)) :=
  match mf with
  | .missing => none
  | .unreadable => none
  | .parsed entries =>
    if entries.isEmpty then none
    else
      match fleetFromDicts entries with
      | none => none
      | some ns =>
        if countSuccess (fun nd => !(nd.did == "")) (ns.map Prod.snd) = 0 then none
        else some ns

/-- A node record of the shape the fresh flow persists: id `node{i}`, ports
`base + i`, quorum role for `i < 7`, with arbitrary DID, peer id and status. -/
def stdRecord (did peer status : Nat → String) (i : Nat) : NodeInfo :=
  ⟨nodeId i, 20000 + (i : Int), 10500 + (i : Int), did i, peer i, decide (i < 7), status i⟩

/-- Persisted metadata of the shape the fresh flow writes: `total` records
keyed `node0 …`, in index order. -/
def stdMeta (total : Nat) (did peer status : Nat → String) : List (String × RawDict) :=
  (List.range total).map (fun i => (nodeId i, (stdRecord did peer status i).to_dict))

/-- The canonical active map after subset adjustment: all 7 quorum records,
then the first `n` transaction records by ascending index. -/
def stdActive (did peer status : Nat → String) (n : Nat) : List (String × NodeInfo) :=
  ((List.range 7).map (fun i => (nodeId i, stdRecord did peer status i))) ++
  ((List.range n).map (fun i => (nodeId (7 + i), stdRecord did peer status (7 + i))))

/-- An all-success fresh environment. -/
def envAllFresh : FreshEnv :=
  ⟨true, fun _ => true, fun _ => true,
   fun i => some ("d" ++ toString i, "p" ++ toString i),
   fun _ => true, fun _ => true, fun _ => true,
   fun _ _ => true, fun _ _ => some 1, true⟩

/-- All-success fresh environment except that node 0 never becomes ready. -/
def envC1 : FreshEnv :=
  ⟨true, fun _ => true, fun i => !(i == 0),
   fun i => some ("d" ++ toString i, "p" ++ toString i),
   fun _ => true, fun _ => true, fun _ => true,
   fun _ _ => true, fun _ _ => some 1, true⟩

/-- All-success fresh environment except that every DID registration fails. -/
def envC2 : FreshEnv :=
  ⟨true, fun _ => true, fun _ => true,
   fun i => some ("d" ++ toString i, "p" ++ toString i),
   fun _ => false, fun _ => true, fun _ => true,
   fun _ _ => true, fun _ _ => some 1, true⟩

/-- All-success fresh environment except that node 0's DID creation returns an
empty DID (a successful envelope whose `result.did` field is missing). -/
def envC7 : FreshEnv :=
  ⟨true, fun _ => true, fun _ => true,
   fun i => if i == 0 then some ("", "p0") else some ("d" ++ toString i, "p" ++ toString i),
   fun _ => true, fun _ => true, fun _ => true,
   fun _ _ => true, fun _ _ => some 1, true⟩

/-- Projection helpers over the optional fresh summary. -/
def fresh_ret (cfg : RubixConfig) (env : FreshEnv) : Option Bool :=
  ((freshRun cfg env).2).map (fun s => s.retVal)

def fresh_reg (cfg : RubixConfig) (env : FreshEnv) : Option Nat :=
  ((freshRun cfg env).2).map (fun s => s.registration_success)

def fresh_node_count (cfg : RubixConfig) (env : FreshEnv) : Option Nat :=
  ((freshRun cfg env).2).map (fun s => s.nodes.length)

def fresh_ql_len (cfg : RubixConfig) (env : FreshEnv) : Option Nat :=
  ((freshRun cfg env).2).map (fun s => s.quorum_list.length)

def fresh_quorum_nonempty (cfg : RubixConfig) (env : FreshEnv) : Option Nat :=
  ((freshRun cfg env).2).map
    (fun s => countSuccess (fun nd => nd.is_quorum && !(nd.did == "")) s.nodes)

def fresh_persisted (cfg : RubixConfig) (env : FreshEnv) : Option Bool :=
  ((freshRun cfg env).2).map (fun s => s.persisted)

/-- An all-success restart environment. -/
def envR : RestartEnv :=
  ⟨fun _ => true, fun _ => true, fun _ => true, fun _ => true, fun _ => true,
   fun _ _ => true, fun _ _ => some 1⟩

/-- A two-node loaded fleet: one quorum record and one transaction record. -/
def nodesR : List (String × NodeInfo) :=
  [("node0", ⟨"node0", 20000, 10500, "d0", "p0", true, "running"⟩),
   ("node7", ⟨"node7", 20007, 10507, "d7", "p7", false, "running"⟩)]

/-- The summary `restart_nodes envR nodesR` computes. -/
def sR : RestartSummary := ⟨2, 2, 2, [⟨2, "d0"⟩], 1, 2, 1, 2, true⟩

/-- Distinct non-empty DIDs for the standard persisted metadata. -/
def didC : Nat → String := fun i => "d" ++ toString i

/-- A concrete 27-record persisted metadata file of the shape the fresh flow
writes. -/
def meta27c : List (String × RawDict) := stdMeta 27 didC (fun _ => "p") (fun _ => "running")

/-- A successful register-did response that signals "Password needed" but
carries an empty challenge id. -/
def respC6empty : Envelope := ⟨200, true, "Password needed", "", 1⟩

/-- A signature-response endpoint that always fails the challenge. -/
def sigFailEnd : SigPayload → Envelope := fun _ => ⟨500, false, "", "", 0⟩

/-- The spec's scenario response: "Password needed" with challenge id `"c1"`,
mode `1`. -/
def respC6 : Envelope := ⟨200, true, "Password needed", "c1", 1⟩

/-- A signature-response endpoint that always succeeds. -/
def sigOkEnd : SigPayload → Envelope := fun _ => ⟨200, true, "", "", 0⟩

/-- A quorum record with a DID. -/
def recC8a : NodeInfo := ⟨"node0", 20000, 10500, "d0", "p0", true, "running"⟩

/-- A quorum record whose DID is empty. -/
def recC8b : NodeInfo := ⟨"node1", 20001, 10501, "", "p1", true, "running"⟩

/-- Metadata with two records, one of which has an empty DID. -/
def meta2c : List (String × RawDict) := [("node0", recC8a.to_dict), ("node1", recC8b.to_dict)]

/-- Metadata whose single record has an empty DID. -/
def metaE : List (String × RawDict) := [("node1", recC8b.to_dict)]

/-- A well-formed record dictionary with its keys in a non-canonical order. -/
def dW : RawDict :=
  [("status", .s "running"), ("id", .s "node0"), ("server_port", .i 20000),
   ("grpc_port", .i 10500), ("did", .s "d0"), ("peer_id", .s "p0"), ("is_quorum", .b true)]

/-- A one-record fleet mapping using the permuted record dictionary. -/
def rawW : List (String × RawDict) := [("node0", dW)]

/-- An all-zero balance oracle. -/
def balZ : Nat → Option Rat := fun _ => some 0

/-- The seven keys of a serialized node record. -/
def metaKeys : List String :=
  ["id", "server_port", "grpc_port", "did", "peer_id", "is_quorum", "status"]

/-- A record dictionary carrying exactly the `NodeInfo` fields: each of the
seven keys maps to a value of the field's type, and every other key is absent.
This is the claim's notion of a well-formed fleet-record value. -/
structure WFDict (d : RawDict) : Prop where
  id_s : ∃ v, dget d "id" = some (.s v)
  sp_i : ∃ v, dget d "server_port" = some (.i v)
  gp_i : ∃ v, dget d "grpc_port" = some (.i v)
  did_s : ∃ v, dget d "did" = some (.s v)
  peer_s : ∃ v, dget d "peer_id" = some (.s v)
  isq_b : ∃ v, dget d "is_quorum" = some (.b v)
  status_s : ∃ v, dget d "status" = some (.s v)
  only : ∀ k, k ∉ metaKeys → dget d k = none

/-- Equivalence of two keyed dictionaries: same key and the same mapping,
insensitive to key order. -/
def recEquiv (p q : String × RawDict) : Prop :=
  p.1 = q.1 ∧ ∀ k, dget p.2 k = dget q.2 k

/-! ### Helper lemmas -/

/-- If the phase-1 loop completes, every index it covered had a successful
process start and readiness wait. -/
theorem phase1Go_complete_ok {cfg : RubixConfig} {env : FreshEnv} :
    ∀ fuel i att ns ql att' out,
      phase1Go cfg env i fuel att ns ql = (att', some out) →
      ∀ j, i ≤ j → j < i + fuel → env.startOk j = true ∧ env.readyOk j = true := by
  intro fuel
  induction fuel with
  | zero =>
    intro i att ns ql att' out _ j h1 h2
    omega
  | succ fuel ih =>
    intro i att ns ql att' out h j h1 h2
    cases hs : env.startOk i with
    | false => simp [phase1Go, hs] at h
    | true =>
      cases hr : env.readyOk i with
      | false => simp [phase1Go, hs, hr] at h
      | true =>
        cases hcd : env.create_did i with
        | none => simp [phase1Go, hs, hr, hcd] at h
        | some dp =>
          simp only [phase1Go, hs, hr, hcd] at h
          rcases Nat.eq_or_lt_of_le h1 with rfl | hlt
          · exact ⟨hs, hr⟩
          · exact ih (i + 1) _ _ _ _ _ h j hlt (by omega)

/-- If the phase-1 loop completes, it appended exactly `fuel` node records. -/
theorem phase1Go_complete_len {cfg : RubixConfig} {env : FreshEnv} :
    ∀ fuel i att ns ql att' ns' ql',
      phase1Go cfg env i fuel att ns ql = (att', some (ns', ql')) →
      ns'.length = ns.length + fuel := by
  intro fuel
  induction fuel with
  | zero =>
    intro i att ns ql att' ns' ql' h
    simp [phase1Go] at h
    simp [← h.2.1]
  | succ fuel ih =>
    intro i att ns ql att' ns' ql' h
    cases hs : env.startOk i with
    | false => simp [phase1Go, hs] at h
    | true =>
      cases hr : env.readyOk i with
      | false => simp [phase1Go, hs, hr] at h
      | true =>
        cases hcd : env.create_did i with
        | none => simp [phase1Go, hs, hr, hcd] at h
        | some dp =>
          simp only [phase1Go, hs, hr, hcd] at h
          have := ih (i + 1) _ _ _ _ _ _ h
          simp [List.length_append] at this
          omega

/-- The phase-1 loop maintains the invariant that the quorum list has one
entry per quorum-role record collected so far. -/
theorem phase1Go_quorum_len {cfg : RubixConfig} {env : FreshEnv} :
    ∀ fuel i att ns ql att' ns' ql',
      phase1Go cfg env i fuel att ns ql = (att', some (ns', ql')) →
      ql.length = (ns.filter (fun nd => nd.is_quorum)).length →
      ql'.length = (ns'.filter (fun nd => nd.is_quorum)).length := by
  intro fuel
  induction fuel with
  | zero =>
    intro i att ns ql att' ns' ql' h hinv
    simp [phase1Go] at h
    rw [← h.2.1, ← h.2.2]
    exact hinv
  | succ fuel ih =>
    intro i att ns ql att' ns' ql' h hinv
    cases hs : env.startOk i with
    | false => simp [phase1Go, hs] at h
    | true =>
      cases hr : env.readyOk i with
      | false => simp [phase1Go, hs, hr] at h
      | true =>
        cases hcd : env.create_did i with
        | none => simp [phase1Go, hs, hr, hcd] at h
        | some dp =>
          simp only [phase1Go, hs, hr, hcd] at h
          refine ih (i + 1) _ _ _ _ _ _ h ?_
          by_cases hq : (i < cfg.quorum_node_count)
          · simp [hq, List.filter_append, hinv]
          · simp [hq, List.filter_append, hinv]

/-- If restart phase 3 completes, it attempted every node (in order) and each
had a successful process start and readiness wait. -/
theorem restart_phase3_complete {env : RestartEnv} :
    ∀ nodes att att', restart_phase3 env nodes att = (att', true) →
      att' = att ++ nodes.map Prod.fst ∧
      ∀ p ∈ nodes, env.startOk p.1 = true ∧ env.readyOk p.1 = true := by
  intro nodes
  induction nodes with
  | nil =>
    intro att att' h
    simp [restart_phase3] at h
    simp [h]
  | cons p rest ih =>
    obtain ⟨k, nd⟩ := p
    intro att att' h
    cases hs : env.startOk k with
    | false => simp [restart_phase3, hs] at h
    | true =>
      cases hr : env.readyOk k with
      | false => simp [restart_phase3, hs, hr] at h
      | true =>
        simp only [restart_phase3, hs, hr] at h
        obtain ⟨h1, h2⟩ := ih (att ++ [k]) att' h
        refine ⟨by simp [h1], ?_⟩
        intro q hq
        rcases List.mem_cons.mp hq with rfl | hq'
        · exact ⟨hs, hr⟩
        · exact h2 q hq'

/-- The balance-verification loop succeeds iff some checked index in its range
has a positive balance. -/
theorem verifyGo_succeeds_iff (bal : Nat → Option Rat) :
    ∀ fuel start, (verifyGo bal start fuel).1 = true ↔
      ∃ i, start ≤ i ∧ i < start + fuel ∧ ∃ b, bal i = some b ∧ 0 < b := by
  intro fuel
  induction fuel with
  | zero =>
    intro start
    simp only [verifyGo]
    constructor
    · intro hv; cases hv
    · intro ⟨i, h1, h2, _⟩; omega
  | succ fuel ih =>
    intro start
    rcases hb : bal start with _ | b
    · simp only [verifyGo, hb]
      constructor
      · intro hv
        obtain ⟨i, hi1, hi2, hP⟩ := (ih (start + 1)).mp hv
        exact ⟨i, by omega, by omega, hP⟩
      · intro ⟨i, hi1, hi2, b, hP, hpos⟩
        apply (ih (start + 1)).mpr
        refine ⟨i, ?_, by omega, b, hP, hpos⟩
        rcases Nat.eq_or_lt_of_le hi1 with heq | h
        · rw [← heq, hb] at hP; cases hP
        · omega
    · by_cases hpos : (0 : Rat) < b
      · simp only [verifyGo, hb, if_pos hpos]
        exact ⟨fun _ => ⟨start, le_refl _, by omega, b, hb, hpos⟩, fun _ => by trivial⟩
      · simp only [verifyGo, hb, if_neg hpos]
        constructor
        · intro hv
          obtain ⟨i, hi1, hi2, hP⟩ := (ih (start + 1)).mp hv
          exact ⟨i, by omega, by omega, hP⟩
        · intro ⟨i, hi1, hi2, b', hP, hpos'⟩
          apply (ih (start + 1)).mpr
          refine ⟨i, ?_, by omega, b', hP, hpos'⟩
          rcases Nat.eq_or_lt_of_le hi1 with heq | h
          · rw [← heq, hb] at hP
            injection hP with hbb
            rw [hbb] at hpos
            exact absurd hpos' hpos
          · omega

/-- The balance-verification loop sleeps 5 seconds before each check, performs
at most `fuel` checks, and performs exactly `fuel` checks when it fails. -/
theorem verifyGo_sleeps (bal : Nat → Option Rat) :
    ∀ fuel start, (∀ t ∈ (verifyGo bal start fuel).2, t = 5) ∧
      (verifyGo bal start fuel).2.length ≤ fuel ∧
      ((verifyGo bal start fuel).1 = false → (verifyGo bal start fuel).2.length = fuel) := by
  intro fuel
  induction fuel with
  | zero => intro start; simp [verifyGo]
  | succ fuel ih =>
    intro start
    obtain ⟨ih1, ih2, ih3⟩ := ih (start + 1)
    rcases hb : bal start with _ | b
    · simp only [verifyGo, hb]
      refine ⟨?_, by simp; omega, ?_⟩
      · intro t ht
        rcases List.mem_cons.mp ht with rfl | ht'
        · rfl
        · exact ih1 t ht'
      · intro hf
        simp [ih3 hf]
    · by_cases hpos : (0 : Rat) < b
      · simp only [verifyGo, hb, if_pos hpos]
        exact ⟨by intro t ht; simp at ht; omega, by simp, by intro hf; cases hf⟩
      · simp only [verifyGo, hb, if_neg hpos]
        refine ⟨?_, by simp; omega, ?_⟩
        · intro t ht
          rcases List.mem_cons.mp ht with rfl | ht'
          · rfl
          · exact ih1 t ht'
        · intro hf
          simp [ih3 hf]

/-- Lookup on a serialized record unfolds to key comparisons in field order. -/
theorem dget_to_dict (n : NodeInfo) (k : String) :
    dget n.to_dict k =
      if "id" = k then some (.s n.id)
      else if "server_port" = k then some (.i n.server_port)
      else if "grpc_port" = k then some (.i n.grpc_port)
      else if "did" = k then some (.s n.did)
      else if "peer_id" = k then some (.s n.peer_id)
      else if "is_quorum" = k then some (.b n.is_quorum)
      else if "status" = k then some (.s n.status)
      else none := rfl

/-- Deserializing a well-formed record dictionary succeeds and serializing the
result reproduces the same mapping (as a lookup function, hence insensitive to
key order). -/
theorem round_trip_record (d : RawDict) (h : WFDict d) :
    ∃ n, NodeInfo.from_dict d = some n ∧ ∀ k, dget n.to_dict k = dget d k := by
  obtain ⟨vid, hid⟩ := h.id_s
  obtain ⟨vsp, hsp⟩ := h.sp_i
  obtain ⟨vgp, hgp⟩ := h.gp_i
  obtain ⟨vdid, hdid⟩ := h.did_s
  obtain ⟨vpeer, hpeer⟩ := h.peer_s
  obtain ⟨visq, hisq⟩ := h.isq_b
  obtain ⟨vst, hstat⟩ := h.status_s
  refine ⟨⟨vid, vsp, vgp, vdid, vpeer, visq, vst⟩, ?_, ?_⟩
  · simp [NodeInfo.from_dict, optStr, optBool, hid, hsp, hgp, hdid, hpeer, hisq, hstat]
  · intro k
    rw [dget_to_dict]
    by_cases h1 : ("id" : String) = k
    · subst h1; simp [hid]
    rw [if_neg h1]
    by_cases h2 : ("server_port" : String) = k
    · subst h2; simp [hsp]
    rw [if_neg h2]
    by_cases h3 : ("grpc_port" : String) = k
    · subst h3; simp [hgp]
    rw [if_neg h3]
    by_cases h4 : ("did" : String) = k
    · subst h4; simp [hdid]
    rw [if_neg h4]
    by_cases h5 : ("peer_id" : String) = k
    · subst h5; simp [hpeer]
    rw [if_neg h5]
    by_cases h6 : ("is_quorum" : String) = k
    · subst h6; simp [hisq]
    rw [if_neg h6]
    by_cases h7 : ("status" : String) = k
    · subst h7; simp [hstat]
    rw [if_neg h7]
    have hk : k ∉ metaKeys := by
      simp [metaKeys]
      exact ⟨fun hh => h1 hh.symm, fun hh => h2 hh.symm, fun hh => h3 hh.symm,
        fun hh => h4 hh.symm, fun hh => h5 hh.symm, fun hh => h6 hh.symm,
        fun hh => h7 hh.symm⟩
    rw [h.only k hk]

/-! ### Claim theorems -/

/-- C1: during the Started phase, a process-start or readiness failure for any
node aborts the entire run immediately, in both the fresh flow
(`RubixManager.start_nodes`, phase 1) and the restart flow
(`RubixRestartManager.restart_nodes`, phase 3): a completed run implies every
node's start and readiness succeeded, and when node index 0's readiness never
succeeds within the timeout the fresh run aborts having started only node 0
(no node with index greater than 0 is started); likewise the restart flow
aborts at its first node when that node's readiness fails. -/
theorem C1_started_phase_abort :
    (∀ (cfg : RubixConfig) (env : FreshEnv) att s, freshRun cfg env = (att, some s) →
        ∀ i, i < cfg.quorum_node_count + cfg.max_transaction_nodes →
          env.startOk i = true ∧ env.readyOk i = true) ∧
    (∀ (cfg : RubixConfig) (env : FreshEnv), env.platformOk = true → env.readyOk 0 = false →
        0 < cfg.quorum_node_count + cfg.max_transaction_nodes →
        freshRun cfg env = ([0], none)) ∧
    (∀ (env : RestartEnv) nodes att s, restart_nodes env nodes = (att, some s) →
        ∀ p ∈ nodes, env.startOk p.1 = true ∧ env.readyOk p.1 = true) ∧
    (∀ (env : RestartEnv) k nd rest, env.readyOk k = false →
        restart_nodes env ((k, nd) :: rest) = ([k], none)) := by
  refine ⟨?_, ?_, ?_, ?_⟩
  · intro cfg env att s h i hi
    by_cases hp : env.platformOk
    · rcases hph : phase1Go cfg env 0 (cfg.quorum_node_count + cfg.max_transaction_nodes)
        [] [] [] with ⟨att0, o⟩
      rcases o with _ | ⟨ns, ql⟩
      · simp [freshRun, hp, hph] at h
      · exact phase1Go_complete_ok _ 0 [] [] [] att0 (ns, ql) hph i (Nat.zero_le i)
          (by omega)
    · simp [freshRun, hp] at h
  · intro cfg env hp hr htot
    obtain ⟨t, ht⟩ : ∃ t, cfg.quorum_node_count + cfg.max_transaction_nodes = t + 1 :=
      ⟨cfg.quorum_node_count + cfg.max_transaction_nodes - 1, by omega⟩
    cases hs : env.startOk 0 with
    | false => simp [freshRun, hp, ht, phase1Go, hs]
    | true => simp [freshRun, hp, ht, phase1Go, hs, hr]
  · intro env nodes att s h p hp
    rcases h3 : restart_phase3 env nodes [] with ⟨att0, ok⟩
    cases ok with
    | false => simp [restart_nodes, h3] at h
    | true => exact (restart_phase3_complete nodes [] att0 h3).2 p hp
  · intro env k nd rest hr
    cases hs : env.startOk k with
    | false => simp [restart_nodes, restart_phase3, hs]
    | true => simp [restart_nodes, restart_phase3, hs, hr]

/-- C1 witness: a concrete fresh environment in which node 0's readiness never
succeeds; the run aborts with only node 0 started. -/
theorem C1_started_phase_abort_witness :
    envC1.readyOk 0 = false ∧ freshRun cfg0 envC1 = ([0], none) :=
  ⟨rfl, C1_started_phase_abort.2.1 cfg0 envC1 rfl rfl (by decide)⟩

/-- C2 counterexample: a completed fresh run in which every DID registration
fails (0 of 27) still returns the success value `True`; the claim's "result is
success only if counts in every phase equal the active node count" is false on
the fresh flow, which only logs a warning. -/
theorem C2_counterexample :
    fresh_ret cfg0 envC2 = some true ∧ fresh_reg cfg0 envC2 = some 0 ∧
      fresh_node_count cfg0 envC2 = some 27 :=
  ⟨rfl, rfl, rfl⟩

/-- C2 (amended): a completed restart run returns success iff the
registration, quorum-distribution and token counts each equal the active node
count (the quorum-setup count is not consulted); a completed fresh run always
returns success, raising only a warning flag when the registration,
quorum-distribution or token counts fall short.  Both flows complete all
remaining phases rather than aborting on per-node failures. -/
theorem C2_run_result_flag :
    (∀ (cfg : RubixConfig) (env : FreshEnv) att s, freshRun cfg env = (att, some s) →
        s.retVal = true ∧
        (s.warned = true ↔ (s.registration_success < s.nodes.length ∨
          s.quorum_add_success < s.nodes.length ∨
          s.token_gen_success < s.nodes.length))) ∧
    (∀ (env : RestartEnv) nodes att s, restart_nodes env nodes = (att, some s) →
        (s.retVal = true ↔ (s.registration_success = s.total ∧
          s.quorum_add_success = s.total ∧ s.token_gen_success = s.total))) := by
  constructor
  · intro cfg env att s h
    by_cases hp : env.platformOk
    · rcases hph : phase1Go cfg env 0 (cfg.quorum_node_count + cfg.max_transaction_nodes)
        [] [] [] with ⟨att0, o⟩
      rcases o with _ | ⟨ns, ql⟩
      · simp [freshRun, hp, hph] at h
      · have hfr : freshRun cfg env = (att0, some
          ⟨ns, ql,
           countSuccess (fun nd => env.registerOk nd.id) ns,
           countSuccess (fun nd => env.addQuorumOk nd.id) ns,
           countSuccess (fun nd => nd.is_quorum && env.setupQuorumOk nd.id) ns,
           countSuccess (fun nd => token_node_success env nd.id) ns,
           env.saveOk,
           decide (countSuccess (fun nd => env.registerOk nd.id) ns < ns.length) ||
             decide (countSuccess (fun nd => env.addQuorumOk nd.id) ns < ns.length) ||
             decide (countSuccess (fun nd => token_node_success env nd.id) ns < ns.length),
           true⟩) := by
          simp [freshRun, hp, hph]
        rw [hfr] at h
        injection h with h1 h2
        injection h2 with h3
        subst h3
        refine ⟨rfl, ?_⟩
        simp only [Bool.or_eq_true, decide_eq_true_eq]
        tauto
    · simp [freshRun, hp] at h
  · intro env nodes att s h
    rcases h3 : restart_phase3 env nodes [] with ⟨att0, ok⟩
    cases ok with
    | false => simp [restart_nodes, h3] at h
    | true =>
      have hrr : restart_nodes env nodes = (att0, some
        ⟨att0.length, (nodes.map Prod.snd).length,
         countSuccess (fun nd => !(nd.did == "") && env.registerOk nd.id) (nodes.map Prod.snd),
         (build_quorum_list (nodes.map Prod.snd)).1,
         (build_quorum_list (nodes.map Prod.snd)).2,
         countSuccess (fun nd => env.addQuorumOk nd.id) (nodes.map Prod.snd),
         countSuccess (fun nd => nd.is_quorum && !(nd.did == "") && env.setupQuorumOk nd.id)
           (nodes.map Prod.snd),
         countSuccess (fun nd => !(nd.did == "")
           && token_attempt_loop (env.tokenGenOk nd.id) (env.tokenBalance nd.id) 1 2)
           (nodes.map Prod.snd),
         !(decide (att0.length < (nodes.map Prod.snd).length) ||
           decide (countSuccess (fun nd => !(nd.did == "") && env.registerOk nd.id)
             (nodes.map Prod.snd) < (nodes.map Prod.snd).length) ||
           decide (countSuccess (fun nd => env.addQuorumOk nd.id) (nodes.map Prod.snd)
             < (nodes.map Prod.snd).length) ||
           decide (countSuccess (fun nd => !(nd.did == "")
             && token_attempt_loop (env.tokenGenOk nd.id) (env.tokenBalance nd.id) 1 2)
             (nodes.map Prod.snd) < (nodes.map Prod.snd).length))⟩) := by
        simp [restart_nodes, h3]
      rw [hrr] at h
      injection h with h1 h2
      injection h2 with h3'
      subst h3'
      dsimp only
      have hstart : att0.length = nodes.length := by
        have := (restart_phase3_complete nodes [] att0 h3).1
        simp [this]
      have hreg : countSuccess (fun nd => !(nd.did == "") && env.registerOk nd.id)
          (nodes.map Prod.snd) ≤ (nodes.map Prod.snd).length :=
        List.length_filter_le _ _
      have hqadd : countSuccess (fun nd => env.addQuorumOk nd.id) (nodes.map Prod.snd)
          ≤ (nodes.map Prod.snd).length :=
        List.length_filter_le _ _
      have htok : countSuccess (fun nd => !(nd.did == "")
          && token_attempt_loop (env.tokenGenOk nd.id) (env.tokenBalance nd.id) 1 2)
          (nodes.map Prod.snd) ≤ (nodes.map Prod.snd).length :=
        List.length_filter_le _ _
      have hlen : (nodes.map Prod.snd).length = nodes.length := List.length_map _ _
      constructor
      · intro hh
        simp only [Bool.not_eq_true', Bool.or_eq_false_iff, decide_eq_false_iff_not,
          not_lt] at hh
        exact ⟨by omega, by omega, by omega⟩
      · intro hh
        obtain ⟨e1, e2, e3⟩ := hh
        simp only [Bool.not_eq_true', Bool.or_eq_false_iff, decide_eq_false_iff_not,
          not_lt]
        refine ⟨⟨⟨by omega, by omega⟩, by omega⟩, by omega⟩

/-- C2 witness: a concrete all-success two-node restart run, with the
success-iff-counts equivalence instantiated on its computed summary. -/
theorem C2_run_result_flag_witness :
    restart_nodes envR nodesR = (["node0", "node7"], some sR) ∧
      (sR.retVal = true ↔ (sR.registration_success = sR.total ∧
        sR.quorum_add_success = sR.total ∧ sR.token_gen_success = sR.total)) :=
  ⟨rfl, C2_run_result_flag.2 envR nodesR ["node0", "node7"] sR rfl⟩

/-- C3: for every persisted metadata mapping (27 records of the shape the
fresh flow writes, with arbitrary DIDs, peer ids and statuses) and every
requested transaction-node count in the validated range, subset adjustment
returns exactly the quorum records followed by the first `n` transaction-role
records in ascending index order.  The equation with the canonical `stdActive`
map also establishes determinism (the active map is a function of the metadata
and the count alone), retention of every quorum-role record, and — the
embedding being pure state passing over the untouched `stdMeta` value — that
unselected records are neither mutated nor deleted. -/
theorem C3_adjust_selects_first_n (did peer status : Nat → String) (n : Nat)
    (h2 : 2 ≤ n) (h20 : n ≤ 20) :
    adjust_node_count cfg0 (.parsed (stdMeta 27 did peer status)) n =
      some (stdActive did peer status n) := by
  interval_cases n <;> rfl

/-- C3 witness: adjustment at count 5 on concrete metadata yields the 7 quorum
records plus transaction records `node7`–`node11`. -/
theorem C3_adjust_selects_first_n_witness :
    adjust_node_count cfg0 (.parsed (stdMeta 27 didC (fun _ => "p") (fun _ => "running"))) 5 =
      some (stdActive didC (fun _ => "p") (fun _ => "running") 5) :=
  C3_adjust_selects_first_n didC (fun _ => "p") (fun _ => "running") 5
    (by decide) (by decide)

/-- C4 counterexample: a non-fresh `start_nodes` call that finds existing
persisted metadata selects an active set of 12 records but starts no node
process at all — no phase of the state machine runs, contradicting the claim
that the selected set is driven through phases 1 and 3–7. -/
theorem C4_counterexample :
    starts_of (start_nodes cfg0 envAllFresh (.parsed meta27c) 5 false) = [] ∧
      (active_of (start_nodes cfg0 envAllFresh (.parsed meta27c) 5 false)).map List.length
        = some 12 :=
  ⟨rfl, rfl⟩

/-- C4 (amended): on a non-fresh run that finds existing persisted metadata,
`start_nodes` only computes the active node set via subset adjustment and
returns immediately — no process is started and no phase is executed in that
run.  The separate restart entry point (`restart_nodes`) drives the *full*
loaded node set (no subset selection) through its phases, skipping identity
creation. -/
theorem C4_adjust_runs_no_phases :
    (∀ (cfg : RubixConfig) (env : FreshEnv) (mf : MetaFile) (count : Nat),
        cfg.min_transaction_nodes ≤ count → count ≤ cfg.max_transaction_nodes →
        file_exists mf = true →
        starts_of (start_nodes cfg env mf count false) = [] ∧
          active_of (start_nodes cfg env mf count false) = adjust_node_count cfg mf count) ∧
    (∀ (env : RestartEnv) nodes att s, restart_nodes env nodes = (att, some s) →
        att = nodes.map Prod.fst ∧ s.total = nodes.length) := by
  constructor
  · intro cfg env mf count hmin hmax hfe
    rcases ha : adjust_node_count cfg mf count with _ | ns
    · simp [start_nodes, Nat.not_lt.mpr hmin, Nat.not_lt.mpr hmax, hfe, ha, starts_of,
        active_of]
    · simp [start_nodes, Nat.not_lt.mpr hmin, Nat.not_lt.mpr hmax, hfe, ha, starts_of,
        active_of]
  · intro env nodes att s h
    rcases h3 : restart_phase3 env nodes [] with ⟨att0, ok⟩
    cases ok with
    | false => simp [restart_nodes, h3] at h
    | true =>
      have hc := restart_phase3_complete nodes [] att0 h3
      simp only [restart_nodes, h3] at h
      injection h with h1 h2
      subst h1
      injection h2 with h3'
      subst h3'
      refine ⟨by simpa using hc.1, ?_⟩
      dsimp only
      simp

/-- C4 witness: the adjust path on a concrete two-record metadata file starts
nothing and returns exactly the adjustment result. -/
theorem C4_adjust_runs_no_phases_witness :
    starts_of (start_nodes cfg0 envAllFresh (.parsed meta2c) 2 false) = [] ∧
      active_of (start_nodes cfg0 envAllFresh (.parsed meta2c) 2 false) =
        adjust_node_count cfg0 (.parsed meta2c) 2 :=
  C4_adjust_runs_no_phases.1 cfg0 envAllFresh (.parsed meta2c) 2 (by decide) (by decide) rfl

/-- C5: an issuance call succeeds iff the request succeeds at the protocol
level (HTTP 200, truthy status, the password challenge with a non-empty id,
and a successful signature response) *and* some balance poll within the 10
attempts observes a positive balance; the polling loop sleeps 5 seconds before
every check, performs at most 10 checks and exactly 10 when the balance never
turns positive; and the caller treats token failures as non-fatal — a
completed fresh run always reaches the persist step (its outcome is exactly
the save outcome) and still returns success. -/
theorem C5_issue_assets_poll :
    (∀ (genResp : Envelope) (sigEndpoint : SigPayload → Envelope)
        (bal : Nat → Option Rat) (pw : String),
        generate_test_tokens genResp sigEndpoint bal pw = true ↔
          (genResp.status_code = 200 ∧ genResp.status = true ∧
           genResp.message = "Password needed" ∧ genResp.result_id ≠ "" ∧
           send_signature_response
             (sigEndpoint ⟨genResp.result_id, genResp.result_mode, pw⟩) = true ∧
           ∃ i, i < 10 ∧ ∃ b, bal i = some b ∧ 0 < b)) ∧
    (∀ (bal : Nat → Option Rat) (ma : Nat),
        (∀ t ∈ (verifyGo bal 0 ma).2, t = 5) ∧ (verifyGo bal 0 ma).2.length ≤ ma ∧
          ((verifyGo bal 0 ma).1 = false → (verifyGo bal 0 ma).2.length = ma)) ∧
    (∀ (cfg : RubixConfig) (env : FreshEnv),
        ((freshRun cfg env).2).map (fun s => s.persisted) =
          ((freshRun cfg env).2).map (fun _ => env.saveOk) ∧
        ((freshRun cfg env).2).map (fun s => s.retVal) =
          ((freshRun cfg env).2).map (fun _ => true)) := by
  refine ⟨?_, ?_, ?_⟩
  · intro genResp sig bal pw
    by_cases hc : genResp.status_code = 200
    · by_cases hst : genResp.status = true
      · by_cases hm : genResp.message = "Password needed"
        · by_cases hid : genResp.result_id = ""
          · simp [generate_test_tokens, hc, hst, hm, hid]
          · by_cases hsr : send_signature_response
                (sig ⟨genResp.result_id, genResp.result_mode, pw⟩) = true
            · simp [generate_test_tokens, hc, hst, hm, hid, hsr, verify_token_generation,
                verifyGo_succeeds_iff bal 10 0]
            · simp [generate_test_tokens, hc, hst, hm, hid, hsr]
        · simp [generate_test_tokens, hc, hst, hm]
      · simp [generate_test_tokens, hc, hst]
    · simp [generate_test_tokens, hc]
  · intro bal ma
    exact verifyGo_sleeps bal ma 0
  · intro cfg env
    by_cases hp : env.platformOk
    · rcases hph : phase1Go cfg env 0 (cfg.quorum_node_count + cfg.max_transaction_nodes)
        [] [] [] with ⟨att0, o⟩
      rcases o with _ | ⟨ns, ql⟩
      · simp [freshRun, hp, hph]
      · simp [freshRun, hp, hph]
    · simp [freshRun, hp]

/-- C5 witness: a balance that stays zero for all 10 checks makes verification
fail after exactly 10 polls. -/
theorem C5_issue_assets_poll_witness :
    (verifyGo balZ 0 10).1 = false ∧ (verifyGo balZ 0 10).2.length = 10 :=
  ⟨rfl, (C5_issue_assets_poll.2.1 balZ 10).2.2 rfl⟩

/-- C6 counterexample: a registration response that signals "Password needed"
but carries an empty challenge id makes `register_did` report success while
submitting no signature response at all — even against an endpoint that would
fail any challenge — contradicting the claim that success requires the
challenge completion to succeed. -/
theorem C6_counterexample :
    register_did respC6empty sigFailEnd "d" "pw" = (true, []) := rfl

/-- C6 (amended): for every registration response that signals
"Password needed" with a *non-empty* challenge id, `register_did` submits
exactly `(challengeId, mode, password)` to the signature-response endpoint and
reports success iff that challenge completion succeeds; a response that fails
the initial accept (non-200 status code) reports failure without submitting
anything.  (When the challenge id is empty, the source skips the challenge and
reports success, as the counterexample shows.) -/
theorem C6_register_challenge :
    (∀ (resp : Envelope) (sigEndpoint : SigPayload → Envelope) (did pw : String),
        resp.status_code = 200 → resp.status = true → resp.message = "Password needed" →
        resp.result_id ≠ "" →
        register_did resp sigEndpoint did pw =
          (send_signature_response (sigEndpoint ⟨resp.result_id, resp.result_mode, pw⟩),
           [⟨resp.result_id, resp.result_mode, pw⟩])) ∧
    (∀ (resp : Envelope) (sigEndpoint : SigPayload → Envelope) (did pw : String),
        resp.status_code ≠ 200 → register_did resp sigEndpoint did pw = (false, [])) := by
  constructor
  · intro resp sig did pw hc hst hm hid
    simp [register_did, hc, hst, hm, hid]
  · intro resp sig did pw hc
    simp [register_did, hc]

/-- C6 witness: the spec's scenario — challenge id `"c1"`, mode `1` — submits
`{id: "c1", mode: 1, password}` and succeeds with a succeeding endpoint. -/
theorem C6_register_challenge_witness :
    register_did respC6 sigOkEnd "d" "pw" =
      (send_signature_response (sigOkEnd ⟨"c1", 1, "pw"⟩), [⟨"c1", 1, "pw"⟩]) :=
  C6_register_challenge.1 respC6 sigOkEnd "d" "pw" rfl rfl rfl (by decide)

/-- C7 counterexample: a fresh run in which node 0's DID creation succeeds but
returns an empty DID produces a quorum list of length 7 while only 6
quorum-role records have a non-empty identity — the fresh flow appends an
entry for every quorum-role record regardless of identity emptiness, so the
claimed length equality fails. -/
theorem C7_counterexample :
    fresh_ql_len cfg0 envC7 = some 7 ∧ fresh_quorum_nonempty cfg0 envC7 = some 6 :=
  ⟨rfl, rfl⟩

/-- C7 (amended): the quorum entry list is recomputed from node records each
run and never loaded from storage (it is a pure function of the records in
both embeddings).  In the restart flow it contains exactly one `(2, identity)`
entry per quorum-role record with non-empty identity and nothing else, so its
length — and the `quorum_count` tally — equals the count of such records.  In
the fresh flow the list instead contains one entry per quorum-role record
whether or not its identity is empty, so its length equals the quorum-role
record count. -/
theorem C7_quorum_list_shape :
    (∀ ns : List NodeInfo,
        (build_quorum_list ns).1 =
          (ns.filter (fun nd => nd.is_quorum && !(nd.did == ""))).map
            (fun nd => QEntry.mk 2 nd.did) ∧
        (build_quorum_list ns).1.length =
          (ns.filter (fun nd => nd.is_quorum && !(nd.did == ""))).length ∧
        (build_quorum_list ns).2 = (build_quorum_list ns).1.length) ∧
    (∀ (cfg : RubixConfig) (env : FreshEnv),
        ((freshRun cfg env).2).map (fun s => s.quorum_list.length) =
          ((freshRun cfg env).2).map
            (fun s => (s.nodes.filter (fun nd => nd.is_quorum)).length)) := by
  constructor
  · intro ns
    induction ns with
    | nil => exact ⟨rfl, rfl, rfl⟩
    | cons n rest ih =>
      obtain ⟨ih1, ih2, ih3⟩ := ih
      by_cases hq : (n.is_quorum && !(n.did == "")) = true
      · refine ⟨?_, ?_, ?_⟩ <;> simp [build_quorum_list, hq, ih1, ih2, ih3]
      · refine ⟨?_, ?_, ?_⟩ <;> simp [build_quorum_list, hq, ih1, ih2, ih3]
  · intro cfg env
    by_cases hp : env.platformOk
    · rcases hph : phase1Go cfg env 0 (cfg.quorum_node_count + cfg.max_transaction_nodes)
        [] [] [] with ⟨att0, o⟩
      rcases o with _ | ⟨ns, ql⟩
      · simp [freshRun, hp, hph]
      · have hlen := phase1Go_quorum_len _ 0 [] [] [] att0 ns ql hph (by simp)
        simp [freshRun, hp, hph, hlen]
    · simp [freshRun, hp]

/-- C8 counterexample: metadata in which one of two records has an empty DID
loads successfully (only a warning is logged), contradicting the claim that a
missing or empty identity detected at load time aborts the restart/adjust
flow. -/
theorem C8_counterexample :
    load_metadata_restart (MetaFile.parsed meta2c) =
        some [("node0", recC8a), ("node1", recC8b)] ∧
      recC8b.did = "" :=
  ⟨rfl, rfl⟩

/-- C8 (amended): loading persisted metadata for a restart run fails before
any phase runs whenever the file is missing or unreadable, present with zero
entries, contains a malformed entry, or contains *no* record with a non-empty
identity; a fleet in which only some records lack identities loads with a
warning (and the manager's adjust path performs no identity check at all). -/
theorem C8_load_aborts :
    load_metadata_restart MetaFile.missing = none ∧
    load_metadata_restart MetaFile.unreadable = none ∧
    load_metadata_restart (MetaFile.parsed []) = none ∧
    (∀ entries, fleetFromDicts entries = none →
        load_metadata_restart (.parsed entries) = none) ∧
    (∀ entries ns, fleetFromDicts entries = some ns → (∀ p ∈ ns, p.2.did = "") →
        load_metadata_restart (.parsed entries) = none) := by
  refine ⟨rfl, rfl, rfl, ?_, ?_⟩
  · intro entries h
    rcases entries with _ | ⟨e, rest⟩
    · rfl
    · simp [load_metadata_restart, h]
  · intro entries ns h hall
    rcases entries with _ | ⟨e, rest⟩
    · rfl
    · have hcount : countSuccess (fun nd => !(nd.did == "")) (ns.map Prod.snd) = 0 := by
        simp only [countSuccess, List.length_eq_zero, List.filter_eq_nil_iff]
        intro nd hnd
        obtain ⟨p, hp, rfl⟩ := List.mem_map.mp hnd
        simp [hall p hp]
      simp [load_metadata_restart, h, hcount]

/-- C8 witness: a one-record metadata file whose only record has an empty DID
is rejected at load time. -/
theorem C8_load_aborts_witness :
    load_metadata_restart (MetaFile.parsed metaE) = none :=
  C8_load_aborts.2.2.2.2 metaE [("node1", recC8b)] rfl (by decide)

/-- C9: metadata serialization round-trips.  For every fleet mapping whose
record values are well-formed (carry exactly the `NodeInfo` fields with
type-correct values), deserializing every record succeeds and serializing the
resulting records back yields a mapping with the same node-id keys whose
record dictionaries agree with the originals on every key lookup — i.e. the
same mapping, insensitive to key order. -/
theorem C9_metadata_round_trip (raw : List (String × RawDict))
    (h : ∀ p ∈ raw, WFDict p.2) :
    (fleetFromDicts raw).isSome = true ∧
      List.Forall₂ recEquiv (fleetToDicts ((fleetFromDicts raw).getD [])) raw := by
  induction raw with
  | nil => exact ⟨rfl, by simp [fleetFromDicts, fleetToDicts]⟩
  | cons p rest ih =>
    obtain ⟨k, d⟩ := p
    obtain ⟨n, hn, hk⟩ := round_trip_record d (h ⟨k, d⟩ (by simp))
    obtain ⟨ih1, ih2⟩ := ih (fun q hq => h q (List.mem_cons_of_mem _ hq))
    rcases hrest : fleetFromDicts rest with _ | ns
    · rw [hrest] at ih1; simp at ih1
    · rw [hrest] at ih2
      refine ⟨by simp [fleetFromDicts, hn, hrest], ?_⟩
      simp only [fleetFromDicts, hn, hrest, Option.getD_some, fleetToDicts, List.map_cons]
      refine List.Forall₂.cons ⟨rfl, hk⟩ ?_
      simpa [fleetToDicts] using ih2

/-- C9 witness: a one-record fleet whose record dictionary lists its keys in a
non-canonical order deserializes and round-trips to an equivalent mapping. -/
theorem C9_metadata_round_trip_witness :
    (fleetFromDicts rawW).isSome = true ∧
      List.Forall₂ recEquiv (fleetToDicts ((fleetFromDicts rawW).getD [])) rawW :=
  C9_metadata_round_trip rawW (by
    intro p hp
    simp only [rawW, List.mem_singleton] at hp
    subst hp
    exact ⟨⟨"node0", rfl⟩, ⟨20000, rfl⟩, ⟨10500, rfl⟩, ⟨"d0", rfl⟩, ⟨"p0", rfl⟩,
      ⟨true, rfl⟩, ⟨"running", rfl⟩, by
        intro k hk
        simp [metaKeys] at hk
        obtain ⟨h1, h2, h3, h4, h5, h6, h7⟩ := hk
        simp [dW, dget, alookup, Ne.symm h1, Ne.symm h2, Ne.symm h3, Ne.symm h4,
          Ne.symm h5, Ne.symm h6, Ne.symm h7]⟩)

/-- C10: on the fresh path (fresh flag set, or no metadata file present) with
a requested transaction-node count passing the `[2, 20]` bounds validation,
the requested count is ignored — the run's result is the same function of the
environment for any two valid counts — and a completed fresh run provisions
exactly `quorum_node_count + max_transaction_nodes = 7 + 20 = 27` node
records under the default configuration. -/
theorem C10_fresh_ignores_count :
    (∀ (env : FreshEnv) (mf : MetaFile) (c1 c2 : Nat) (f : Bool),
        cfg0.min_transaction_nodes ≤ c1 → c1 ≤ cfg0.max_transaction_nodes →
        cfg0.min_transaction_nodes ≤ c2 → c2 ≤ cfg0.max_transaction_nodes →
        (f = true ∨ mf = MetaFile.missing) →
        start_nodes cfg0 env mf c1 f = start_nodes cfg0 env mf c2 f) ∧
    (∀ (env : FreshEnv) (mf : MetaFile) (c : Nat) (f : Bool) att s,
        start_nodes cfg0 env mf c f = StartResult.fresh att (some s) →
        s.nodes.length = 27) := by
  constructor
  · intro env mf c1 c2 f h1 h2 h3 h4 h5
    have e1 : start_nodes cfg0 env mf c1 f =
        StartResult.fresh (freshRun cfg0 env).1 (freshRun cfg0 env).2 := by
      rcases h5 with rfl | rfl
      · simp [start_nodes, Nat.not_lt.mpr h1, Nat.not_lt.mpr h2]
      · simp [start_nodes, Nat.not_lt.mpr h1, Nat.not_lt.mpr h2, file_exists]
    have e2 : start_nodes cfg0 env mf c2 f =
        StartResult.fresh (freshRun cfg0 env).1 (freshRun cfg0 env).2 := by
      rcases h5 with rfl | rfl
      · simp [start_nodes, Nat.not_lt.mpr h3, Nat.not_lt.mpr h4]
      · simp [start_nodes, Nat.not_lt.mpr h3, Nat.not_lt.mpr h4, file_exists]
    rw [e1, e2]
  · intro env mf c f att s h
    by_cases hv1 : c < cfg0.min_transaction_nodes
    · simp [start_nodes, hv1] at h
    by_cases hv2 : cfg0.max_transaction_nodes < c
    · simp [start_nodes, hv1, hv2] at h
    by_cases hb : (!f && file_exists mf) = true
    · rcases ha : adjust_node_count cfg0 mf c with _ | ns
      · simp [start_nodes, hv1, hv2, hb, ha] at h
      · simp [start_nodes, hv1, hv2, hb, ha] at h
    · simp only [start_nodes, if_neg hv1, if_neg hv2, hb, if_false, Bool.false_eq_true,
        if_neg] at h
      by_cases hp : env.platformOk
      · rcases hph : phase1Go cfg0 env 0
          (cfg0.quorum_node_count + cfg0.max_transaction_nodes) [] [] [] with ⟨att0, o⟩
        rcases o with _ | ⟨ns, ql⟩
        · simp [freshRun, hp, hph] at h
        · have hlen := phase1Go_complete_len _ 0 [] [] [] att0 ns ql hph
          simp only [freshRun, hp, if_true, hph] at h
          injection h with h1 h2
          injection h2 with h3
          rw [← h3]
          dsimp only
          simpa using hlen
      · simp [freshRun, hp] at h

/-- C10 witness: with no metadata file, requesting 2 or 20 transaction nodes
produces identical fresh-run results. -/
theorem C10_fresh_ignores_count_witness :
    start_nodes cfg0 envAllFresh MetaFile.missing 2 false =
      start_nodes cfg0 envAllFresh MetaFile.missing 20 false :=
  C10_fresh_ignores_count.1 envAllFresh MetaFile.missing 2 20 false (by decide) (by decide)
    (by decide) (by decide) (Or.inr rfl)

end Rubix
